import Mathlib

/-!
Shallow embedding of the Solana dormant-token spike-detection engine
(`src/data/TokenState.ts`, `src/detector/TokenUniverseManager.ts`,
`src/utils/ErrorHandler.ts`, `src/utils/Config.ts`).

Numbers (JS `number`) are modelled as `ℚ`; unix-millisecond timestamps as
`Int`.  Optional numeric provider fields (`pair.fdv`, `pair.volume?.['m5']`,
…) are `Option ℚ` and the JS idiom `x || 0` becomes `Option.getD 0`
(both send `undefined`/`null`/`0` to `0`).  `parseFloat(pair.priceUsd) || 0`
is handled at the provider boundary, so `priceUsd` is stored as the parsed
rational (`0` when unparsable).  The `Map`/`Set` containers become
association lists / membership lists with the same observable lookup
semantics.  `Date.now()` becomes an explicit `now : Int` argument.
-/

namespace SpikeBot

attribute [local semireducible] Rat.add Rat.mul Rat.sub Rat.inv

/-- Permitted token origin, per `DexScreenerService.getTokenSource`. -/
inductive Source where
  | pumpfun
  | bonk
deriving DecidableEq, Repr

/-- Alert tier (`'tier25' | 'tier50'`). -/
inductive Tier where
  | tier25
  | tier50
deriving DecidableEq, Repr

/-- `TokenSnapshot` from `src/data/TokenState.ts`. -/
structure TokenSnapshot where
  timestamp : Int
  price : ℚ
  marketCap : ℚ
  volume5m : ℚ
  volume24h : ℚ
  liquidity : ℚ
  priceChange5m : ℚ
  priceChange24h : ℚ
deriving DecidableEq, Repr

/-- The fields of the provider `Pair` record that the engine reads. -/
structure TokenPair where
  baseTokenAddress : String
  baseTokenSymbol : String
  baseTokenName : String
  pairAddress : String
  dexId : String
  priceUsd : ℚ
  fdv : Option ℚ
  volumeM5 : Option ℚ
  volumeH24 : Option ℚ
  liquidityUsd : Option ℚ
  priceChangeM5 : Option ℚ
  priceChangeH24 : Option ℚ
  pairCreatedAt : Option Int
deriving DecidableEq, Repr

/-- `TokenState` from `src/data/TokenState.ts` (the revision with `source`).
`lastAlertTimestamp` is split into its two optional entries. -/
structure TokenState where
  tokenAddress : String
  baseTokenSymbol : String
  baseTokenName : String
  pairAddress : String
  source : Option Source
  createdAt : Option Int
  firstSeen : Int
  snapshots : List TokenSnapshot
  lastAlertTier25 : Option Int
  lastAlertTier50 : Option Int
  lastSeenActive : Int
  currentPair : Option TokenPair
deriving DecidableEq, Repr

/-- The configuration values read by the detection engine
(`src/utils/Config.ts`; `minLiquidityUsd` is the liquidity floor the
detector reads from the same configuration surface). -/
structure Config where
  alertThreshold25 : Bool
  alertThreshold50 : Bool
  minTokenAgeHours : ℚ
  maxMarketCap : ℚ
  minLiquidityUsd : ℚ
  dormantVolatilityThreshold : ℚ
  dormantVolumeThreshold : ℚ
  baselinePeriodMinutes : ℚ
  alertCooldownMs : Int
deriving DecidableEq, Repr

/-- `t` is a prefix of `s` (character lists). -/
def charPrefix : List Char → List Char → Bool
  | [], _ => true
  | _ :: _, [] => false
  | a :: as, b :: bs => a == b && charPrefix as bs

/-- `t` occurs as a contiguous run inside `s` (character lists). -/
def charIncludes (s t : List Char) : Bool :=
  match s with
  | [] => t.isEmpty
  | _ :: rest => charPrefix t s || charIncludes rest t

/-- JS `String.prototype.includes`: `t` occurs as a substring of `s`. -/
def strIncludes (s t : String) : Bool := charIncludes s.data t.data

/-- JS `String.prototype.toLowerCase` (ASCII range suffices here). -/
def strToLower (s : String) : String := ⟨s.data.map Char.toLower⟩

/-- `DexScreenerService.getTokenSource`: classify by `dexId` substring. -/
def getTokenSource (pair : TokenPair) : Option Source :=
  let dexId := strToLower pair.dexId
  if strIncludes dexId "pump" then some Source.pumpfun
  else if strIncludes dexId "bonk" then some Source.bonk
  else none

/-- `DexScreenerService.isFromPumpOrBonk`. -/
def isFromPumpOrBonk (pair : TokenPair) : Bool :=
  (getTokenSource pair).isSome

/-- `TokenState.lastAlertTimestamp[tier]`. -/
def TokenState.lastAlert (st : TokenState) : Tier → Option Int
  | Tier.tier25 => st.lastAlertTier25
  | Tier.tier50 => st.lastAlertTier50

/-- `state.lastAlertTimestamp[tier] = ts`. -/
def TokenState.setLastAlert (st : TokenState) (t : Tier) (ts : Int) : TokenState :=
  match t with
  | Tier.tier25 => { st with lastAlertTier25 := some ts }
  | Tier.tier50 => { st with lastAlertTier50 := some ts }

/-- The `Map<string, TokenState>` of `TokenStateManager`, as an
association list keyed by token address. -/
abbrev TokenMap := List (String × TokenState)

/-- `Map.get`. -/
def TokenMap.find? : TokenMap → String → Option TokenState
  | [], _ => none
  | (k, v) :: rest, a => if k = a then some v else TokenMap.find? rest a

/-- `Map.set`. -/
def TokenMap.set : TokenMap → String → TokenState → TokenMap
  | [], a, st => [(a, st)]
  | (k, v) :: rest, a, st =>
      if k = a then (a, st) :: rest else (k, v) :: TokenMap.set rest a st

/-- `TokenStateManager.maxSnapshotsPerToken`. -/
def maxSnapshotsPerToken : Nat := 144

/-- The fresh `TokenState` built by `updateTokenState` when the token is
unknown (`source: source || null`, `firstSeen/lastSeenActive = Date.now()`). -/
def freshState (tokenAddress : String) (pair : TokenPair) (source : Option Source)
    (now : Int) : TokenState :=
  { tokenAddress := tokenAddress
    baseTokenSymbol := pair.baseTokenSymbol
    baseTokenName := pair.baseTokenName
    pairAddress := pair.pairAddress
    source := source
    createdAt := pair.pairCreatedAt
    firstSeen := now
    snapshots := []
    lastAlertTier25 := none
    lastAlertTier50 := none
    lastSeenActive := now
    currentPair := some pair }

/-- The `updateTokenState` else-branch: backfill `source` only when it
was previously unset. -/
def backfillSource (st : TokenState) (source : Option Source) : TokenState :=
  match st.source, source with
  | none, some s => { st with source := some s }
  | _, _ => st

/-- `TokenStateManager.updateTokenState`: create the state if absent
(else backfill `source` only when previously unset), set `currentPair`,
push the snapshot, `shift()` the oldest when over capacity, and refresh
`lastSeenActive` on the "showed activity" rule. -/
def updateTokenState (tokens : TokenMap) (tokenAddress : String) (pair : TokenPair)
    (snapshot : TokenSnapshot) (source : Option Source) (now : Int) : TokenMap :=
  let st0 :=
    match tokens.find? tokenAddress with
    | none => freshState tokenAddress pair source now
    | some st => backfillSource st source
  let pushed := st0.snapshots ++ [snapshot]
  let snaps := if maxSnapshotsPerToken < pushed.length then pushed.drop 1 else pushed
  let active :=
    if 0 < snapshot.volume5m ∨ 1 < |snapshot.priceChange5m| then snapshot.timestamp
    else st0.lastSeenActive
  tokens.set tokenAddress
    { st0 with currentPair := some pair, snapshots := snaps, lastSeenActive := active }

/-- `TokenStateManager.getSnapshotsInWindow`: snapshots whose timestamp is
at least `now - windowMinutes * 60 * 1000`. -/
def getSnapshotsInWindow (tokens : TokenMap) (tokenAddress : String)
    (windowMinutes : ℚ) (now : Int) : List TokenSnapshot :=
  match tokens.find? tokenAddress with
  | none => []
  | some st =>
      st.snapshots.filter fun s =>
        decide ((now : ℚ) - windowMinutes * 60 * 1000 ≤ (s.timestamp : ℚ))

/-- The 1h drift computed by `isDormant`:
`firstPrice > 0 ? Math.abs((lastPrice - firstPrice) / firstPrice) * 100 : 0`. -/
def dormantDrift (firstPrice lastPrice : ℚ) : ℚ :=
  if 0 < firstPrice then |(lastPrice - firstPrice) / firstPrice| * 100 else 0

/-- The adjacent-candle change computed by `isDormant`:
`prevPrice > 0 ? ((currPrice - prevPrice) / prevPrice) * 100 : 0`. -/
def dormantStep (prevPrice currPrice : ℚ) : ℚ :=
  if 0 < prevPrice then (currPrice - prevPrice) / prevPrice * 100 else 0

/-- The "No 5m candle > +10%" scan of `isDormant` over consecutive snapshots. -/
def noBigStep : List TokenSnapshot → Bool
  | [] => true
  | [_] => true
  | a :: b :: rest =>
      decide (dormantStep a.price b.price ≤ 10) && noBigStep (b :: rest)

/-- Cumulative `volume5m` over a window
(`snapshots.reduce((sum, s) => sum + s.volume5m, 0)`). -/
def windowVolume (snapshots : List TokenSnapshot) : ℚ :=
  snapshots.foldl (fun sum s => sum + s.volume5m) 0

/-- The body of `TokenStateManager.isDormant` applied to an already
extracted window. -/
def isDormantWindow (volatilityThreshold volumeThreshold : ℚ)
    (snapshots : List TokenSnapshot) : Bool :=
  if snapshots.length < 3 then false
  else if volumeThreshold ≤ windowVolume snapshots then false
  else if volatilityThreshold ≤
      dormantDrift ((snapshots.head?.map TokenSnapshot.price).getD 0)
        ((snapshots.getLast?.map TokenSnapshot.price).getD 0) then false
  else noBigStep snapshots

/-- `TokenStateManager.isDormant` (the requirements-7.2 revision). -/
def isDormant (tokens : TokenMap) (tokenAddress : String)
    (volatilityThreshold volumeThreshold baselineMinutes : ℚ) (now : Int) : Bool :=
  isDormantWindow volatilityThreshold volumeThreshold
    (getSnapshotsInWindow tokens tokenAddress baselineMinutes now)

/-- `TokenStateManager.recordAlert`. -/
def recordAlert (tokens : TokenMap) (tokenAddress : String) (tier : Tier)
    (now : Int) : TokenMap :=
  match tokens.find? tokenAddress with
  | none => tokens
  | some st => tokens.set tokenAddress (st.setLastAlert tier now)

/-- `TokenStateManager.isInCooldown`.  JS reads
`!state.lastAlertTimestamp[tier]`, so a stored timestamp of `0` is falsy
and counts as "never alerted". -/
def isInCooldown (tokens : TokenMap) (tokenAddress : String) (tier : Tier)
    (cooldownMs : Int) (now : Int) : Bool :=
  match tokens.find? tokenAddress with
  | none => false
  | some st =>
      match st.lastAlert tier with
      | none => false
      | some ts => if ts = 0 then false else decide (now - ts < cooldownMs)

/-- `SpikeAlert` from `src/detector/SpikeDetector` (TokenState.ts revision). -/
structure SpikeAlert where
  tokenAddress : String
  baseTokenSymbol : String
  baseTokenName : String
  pair : TokenPair
  source : Source
  tokenAgeHours : ℚ
  priceChange5m : ℚ
  tier : Tier
  currentPrice : ℚ
  marketCap : ℚ
  volume5m : ℚ
  liquidity : ℚ
  timestamp : Int
deriving DecidableEq, Repr

/-- The snapshot `checkForSpike` builds from the current pair data. -/
def mkSnapshot (pair : TokenPair) (now : Int) : TokenSnapshot :=
  { timestamp := now
    price := pair.priceUsd
    marketCap := pair.fdv.getD 0
    volume5m := pair.volumeM5.getD 0
    volume24h := pair.volumeH24.getD 0
    liquidity := pair.liquidityUsd.getD 0
    priceChange5m := pair.priceChangeM5.getD 0
    priceChange24h := pair.priceChangeH24.getD 0 }

/-- `SpikeDetector.meetsBasicCriteria`: market-cap ceiling / nonzero,
positive price, liquidity floor. -/
def meetsBasicCriteria (cfg : Config) (pair : TokenPair) : Bool :=
  let marketCap := pair.fdv.getD 0
  if cfg.maxMarketCap ≤ marketCap ∨ marketCap = 0 then false
  else if pair.priceUsd ≤ 0 then false
  else if pair.liquidityUsd.getD 0 < cfg.minLiquidityUsd then false
  else true

/-- The tier-selection block of `checkForSpike` (tier 50 checked first). -/
def selectTier (cfg : Config) (tokens : TokenMap) (tokenAddress : String)
    (priceChange5m : ℚ) (now : Int) : Option Tier :=
  if cfg.alertThreshold50 && decide (50 ≤ priceChange5m)
      && !(isInCooldown tokens tokenAddress Tier.tier50 cfg.alertCooldownMs now) then
    some Tier.tier50
  else if cfg.alertThreshold25 && decide (25 ≤ priceChange5m)
      && decide (priceChange5m < 50)
      && !(isInCooldown tokens tokenAddress Tier.tier25 cfg.alertCooldownMs now) then
    some Tier.tier25
  else none

/-- `tokenAgeHours` as computed by `checkForSpike`
(`pair.pairCreatedAt` is falsy when absent or `0`). -/
def tokenAgeHoursOf (pair : TokenPair) (now : Int) : ℚ :=
  match pair.pairCreatedAt with
  | none => 0
  | some c => if c = 0 then 0 else ((now : ℚ) - (c : ℚ)) / (1000 * 60 * 60)

/-- The `SpikeAlert` value built by `checkForSpike` when `tier` fires. -/
def spikeAlertOf (pair : TokenPair) (source : Source) (tier : Tier) (now : Int) : SpikeAlert :=
  { tokenAddress := pair.baseTokenAddress
    baseTokenSymbol := pair.baseTokenSymbol
    baseTokenName := pair.baseTokenName
    pair := pair
    source := source
    tokenAgeHours := tokenAgeHoursOf pair now
    priceChange5m := (mkSnapshot pair now).priceChange5m
    tier := tier
    currentPrice := (mkSnapshot pair now).price
    marketCap := (mkSnapshot pair now).marketCap
    volume5m := (mkSnapshot pair now).volume5m
    liquidity := (mkSnapshot pair now).liquidity
    timestamp := (mkSnapshot pair now).timestamp }

/-- The tail of `checkForSpike` after the source gate and the snapshot
append: basic-criteria gate, dormancy gate, tier selection, and the
synchronous `recordAlert` before the alert is returned. -/
def checkForSpikeWith (cfg : Config) (tokens1 : TokenMap) (pair : TokenPair)
    (source : Source) (now : Int) : TokenMap × Option SpikeAlert :=
  if !(meetsBasicCriteria cfg pair) then (tokens1, none)
  else if !(isDormant tokens1 pair.baseTokenAddress cfg.dormantVolatilityThreshold
      cfg.dormantVolumeThreshold cfg.baselinePeriodMinutes now) then (tokens1, none)
  else
    match selectTier cfg tokens1 pair.baseTokenAddress ((mkSnapshot pair now).priceChange5m) now with
    | none => (tokens1, none)
    | some tier =>
        (recordAlert tokens1 pair.baseTokenAddress tier now,
         some (spikeAlertOf pair source tier now))

/-- `SpikeDetector.checkForSpike`: the full evaluation of one incoming
pair record.  Returns the updated token map together with the alert, if
any. -/
def checkForSpike (cfg : Config) (tokens : TokenMap) (pair : TokenPair)
    (now : Int) : TokenMap × Option SpikeAlert :=
  match getTokenSource pair with
  | none => (tokens, none)
  | some source =>
      checkForSpikeWith cfg
        (updateTokenState tokens pair.baseTokenAddress pair (mkSnapshot pair now)
          (some source) now)
        pair source now

/-- A sequence of `checkForSpike` evaluations (as in `checkMultiplePairs`
and repeated monitor cycles), collecting every emitted alert. -/
def runCalls (cfg : Config) : TokenMap → List (TokenPair × Int) → TokenMap × List SpikeAlert
  | tokens, [] => (tokens, [])
  | tokens, (pair, t) :: rest =>
    let step := checkForSpike cfg tokens pair t
    let next := runCalls cfg step.1 rest
    (next.1, step.2.toList ++ next.2)

/-- Snapshots stored for an address (empty when the token is unknown). -/
def storedSnapshots (tokens : TokenMap) (tokenAddress : String) : List TokenSnapshot :=
  match tokens.find? tokenAddress with
  | none => []
  | some st => st.snapshots

/-- The eligibility predicate of `filterEligiblePairs`
(`src/detector/TokenUniverseManager`, the revision with the liquidity
floor): market-cap window, verified source, positive price, liquidity
floor, and the age filter (skipped when `pairCreatedAt` is falsy). -/
def eligiblePair (cfg : Config) (now : Int) (pair : TokenPair) : Bool :=
  let marketCap := pair.fdv.getD 0
  if cfg.maxMarketCap ≤ marketCap ∨ marketCap = 0 then false
  else if !(isFromPumpOrBonk pair) then false
  else if pair.priceUsd ≤ 0 then false
  else if pair.liquidityUsd.getD 0 < cfg.minLiquidityUsd then false
  else
    match pair.pairCreatedAt with
    | none => true
    | some c =>
        if c = 0 then true
        else decide (cfg.minTokenAgeHours ≤ ((now : ℚ) - (c : ℚ)) / (1000 * 60 * 60))

/-- `TokenUniverseManager.filterEligiblePairs`. -/
def filterEligiblePairs (cfg : Config) (now : Int) (pairs : List TokenPair) : List TokenPair :=
  pairs.filter (eligiblePair cfg now)

/-- The tracked-token `Set<string>` of `TokenUniverseManager`. -/
abbrev TrackedSet := List String

/-- `Set.has`. -/
def TrackedSet.hasToken (l : TrackedSet) (a : String) : Bool := l.contains a

/-- `Set.add` (a no-op when already present). -/
def TrackedSet.addToken (l : TrackedSet) (a : String) : TrackedSet :=
  if l.contains a then l else a :: l

/-- `Set.delete`. -/
def TrackedSet.deleteToken (l : TrackedSet) (a : String) : TrackedSet :=
  l.filter fun x => x ≠ a

/-- The shared mutable state `updateTokenEligibility` can reach: the
universe membership set and the per-asset state map. -/
structure SystemState where
  trackedTokens : TrackedSet
  tokens : TokenMap
deriving DecidableEq, Repr

/-- `TokenUniverseManager.updateTokenEligibility`.  The network fetch
result is passed explicitly: `Except.error` is the `catch` path. -/
def updateTokenEligibility (cfg : Config) (sys : SystemState) (tokenAddress : String)
    (fetched : Except Unit (List TokenPair)) (now : Int) : SystemState × Bool :=
  match fetched with
  | Except.error _ => (sys, false)
  | Except.ok pairs =>
    let eligiblePairs := filterEligiblePairs cfg now pairs
    if 0 < eligiblePairs.length then
      ({ sys with trackedTokens := sys.trackedTokens.addToken tokenAddress }, true)
    else
      ({ sys with trackedTokens := sys.trackedTokens.deleteToken tokenAddress }, false)

/-- The observable trace of one `ErrorHandler.retry` run: how many times
the operation ran, the `(error, attempt)` hook invocations, the backoff
delays awaited, and the final outcome (`Except.error none` is the
fabricated `Retry failed with unknown error`). -/
structure RetryTrace (E A : Type) where
  calls : Nat
  hookCalls : List (E × Nat)
  delays : List ℚ
  result : Except (Option E) A
deriving Repr

/-- The loop of `ErrorHandler.retry`, starting at 1-based `attempt`; the
list holds the outcome each remaining invocation of `fn` would produce
(`attempt < maxRetries` is "the outcome list has a tail"). -/
def retryFrom (d : ℚ) : Nat → List (Except E A) → RetryTrace E A
  | _, [] => ⟨0, [], [], Except.error none⟩
  | attempt, out :: rest =>
    match out with
    | Except.ok a => ⟨1, [], [], Except.ok a⟩
    | Except.error e =>
      match rest with
      | [] => ⟨1, [(e, attempt)], [], Except.error (some e)⟩
      | r :: rs =>
        let t := retryFrom d (attempt + 1) (r :: rs)
        ⟨t.calls + 1, (e, attempt) :: t.hookCalls,
          d * 2 ^ (attempt - 1) :: t.delays, t.result⟩

/-- `ErrorHandler.retry fn maxRetries initialDelayMs onError`, applied to
the outcome sequence `outs = [fn 1, …, fn maxRetries]`. -/
def ErrorHandler.retry (outs : List (Except E A)) (initialDelayMs : ℚ) : RetryTrace E A :=
  retryFrom initialDelayMs 1 outs

/-- The `(error, attempt)` hook-invocation list for a run whose first
attempts (numbered from `k`) fail with `es`. -/
def hooksFrom (k : Nat) : List E → List (E × Nat)
  | [] => []
  | e :: es => (e, k) :: hooksFrom (k + 1) es

/-- The backoff schedule: `n` delays for attempts numbered from `k`,
each `d * 2 ^ (attempt - 1)`.  A function of the failure count only. -/
def delaysFrom (d : ℚ) (k n : Nat) : List ℚ :=
  (List.range n).map fun i => d * 2 ^ (k + i - 1)

/-- The shipped configuration defaults (`Config.ts` constructor, with the
requirements-section-11 liquidity floor of $2,000). -/
def cfg0 : Config :=
  { alertThreshold25 := true
    alertThreshold50 := true
    minTokenAgeHours := 1
    maxMarketCap := 100000000
    minLiquidityUsd := 2000
    dormantVolatilityThreshold := 5
    dormantVolumeThreshold := 1000
    baselinePeriodMinutes := 60
    alertCooldownMs := 1800000 }

/-- A quiet snapshot at time `t`: given price, given 5m volume, given
provider 5m change, market cap $40k, liquidity $5k. -/
def snapAt (t : Int) (price vol pc5 : ℚ) : TokenSnapshot :=
  { timestamp := t
    price := price
    marketCap := 40000
    volume5m := vol
    volume24h := 0
    liquidity := 5000
    priceChange5m := pc5
    priceChange24h := 0 }

/-- A Pump.fun pair record reporting a +50% 5-minute change. -/
def pairA : TokenPair :=
  { baseTokenAddress := "tok"
    baseTokenSymbol := "TOK"
    baseTokenName := "Tok Token"
    pairAddress := "pairtok"
    dexId := "pumpswap"
    priceUsd := 1
    fdv := some 40000
    volumeM5 := some 0
    volumeH24 := some 0
    liquidityUsd := some 5000
    priceChangeM5 := some 50
    priceChangeH24 := some 0
    pairCreatedAt := none }

/-- Like `pairA` but reporting `priceChange_5m = 24.999`. -/
def pair24 : TokenPair := { pairA with priceChangeM5 := some (24999 / 1000) }

/-- Like `pairA` but with a doubled price and a +30% 5-minute change. -/
def pairJump : TokenPair := { pairA with priceUsd := 2, priceChangeM5 := some 30 }

/-- Like `pairA` but with liquidity $1,500, below the $2,000 floor. -/
def pairLowLiq : TokenPair := { pairA with liquidityUsd := some 1500 }

/-- Stored state for `"tok"`: two quiet snapshots one and two minutes
before `t = 10000000`, never alerted. -/
def stA : TokenState :=
  { tokenAddress := "tok"
    baseTokenSymbol := "TOK"
    baseTokenName := "Tok Token"
    pairAddress := "pairtok"
    source := some Source.pumpfun
    createdAt := none
    firstSeen := 9000000
    snapshots := [snapAt 9880000 1 0 0, snapAt 9940000 1 0 0]
    lastAlertTier25 := none
    lastAlertTier50 := none
    lastSeenActive := 9000000
    currentPair := none }

/-- Token map holding only `stA`. -/
def tokensA : TokenMap := [("tok", stA)]

/-- Like `stA` but with three stored quiet snapshots, so the baseline
window is already dormant before any new snapshot arrives. -/
def stB : TokenState := { stA with snapshots := snapAt 9820000 1 0 0 :: stA.snapshots }

/-- Token map holding only `stB`. -/
def tokensB : TokenMap := [("tok", stB)]

/-- Three all-zero-price snapshots with qualifying (zero) volume. -/
def zeroSnaps : List TokenSnapshot := [snapAt 100 0 0 0, snapAt 200 0 0 0, snapAt 300 0 0 0]

/-- Three constant-price snapshots with qualifying volume. -/
def quietSnaps : List TokenSnapshot := [snapAt 100 1 0 0, snapAt 200 1 0 0, snapAt 300 1 0 0]

/-- The alert that `checkForSpike cfg0 tokensA pairA 10000000` fires. -/
def alertA : SpikeAlert := spikeAlertOf pairA Source.pumpfun Tier.tier50 10000000

/-! ## Basic container lemmas -/

theorem TokenMap.find?_set_self (m : TokenMap) (k : String) (v : TokenState) :
    (m.set k v).find? k = some v := by
  induction m with
  | nil => simp [TokenMap.set, TokenMap.find?]
  | cons p rest ih =>
    obtain ⟨k', v'⟩ := p
    by_cases h : k' = k
    · simp [TokenMap.set, TokenMap.find?, h]
    · simp [TokenMap.set, TokenMap.find?, h, ih]

theorem TokenMap.find?_set_ne (m : TokenMap) (k : String) (v : TokenState) (a : String)
    (h : k ≠ a) : (m.set k v).find? a = m.find? a := by
  induction m with
  | nil => simp [TokenMap.set, TokenMap.find?, h]
  | cons p rest ih =>
    obtain ⟨k', v'⟩ := p
    by_cases hk : k' = k
    · subst hk
      simp [TokenMap.set, TokenMap.find?, h]
    · simp [TokenMap.set, TokenMap.find?, hk, ih]

theorem backfillSource_snapshots (st : TokenState) (source : Option Source) :
    (backfillSource st source).snapshots = st.snapshots := by
  unfold backfillSource
  cases h : st.source <;> cases source <;> simp [h]

theorem backfillSource_lastAlertTier25 (st : TokenState) (source : Option Source) :
    (backfillSource st source).lastAlertTier25 = st.lastAlertTier25 := by
  unfold backfillSource
  cases h : st.source <;> cases source <;> simp [h]

theorem backfillSource_lastAlertTier50 (st : TokenState) (source : Option Source) :
    (backfillSource st source).lastAlertTier50 = st.lastAlertTier50 := by
  unfold backfillSource
  cases h : st.source <;> cases source <;> simp [h]

theorem backfillSource_source (st : TokenState) (source : Option Source) :
    (backfillSource st source).source = st.source.or source := by
  unfold backfillSource
  cases h : st.source <;> cases source <;> simp [h]

theorem TokenState.lastAlert_setLastAlert_self (st : TokenState) (t : Tier) (ts : Int) :
    (st.setLastAlert t ts).lastAlert t = some ts := by
  cases t <;> rfl

theorem TokenState.lastAlert_setLastAlert_ne (st : TokenState) (t t' : Tier) (ts : Int)
    (h : t' ≠ t) : (st.setLastAlert t ts).lastAlert t' = st.lastAlert t' := by
  cases t <;> cases t' <;> first | rfl | exact absurd rfl h

/-! ## The snapshot store: capacity and FIFO eviction (C6) -/

theorem storedSnapshots_updateTokenState (tokens : TokenMap) (tokenAddress : String)
    (pair : TokenPair) (snapshot : TokenSnapshot) (source : Option Source) (now : Int) :
    storedSnapshots (updateTokenState tokens tokenAddress pair snapshot source now) tokenAddress =
      (let pushed := storedSnapshots tokens tokenAddress ++ [snapshot]
       if maxSnapshotsPerToken < pushed.length then pushed.drop 1 else pushed) := by
  unfold updateTokenState storedSnapshots
  rw [TokenMap.find?_set_self]
  cases h : tokens.find? tokenAddress with
  | none => rfl
  | some st => simp [backfillSource_snapshots]

/-- Claim C6: after any `updateTokenState` call the stored snapshot list
has length at most 144; when the capacity would be exceeded exactly the
oldest snapshot is dropped (FIFO), and otherwise the new snapshot is
appended with all previously stored snapshots unchanged. -/
theorem updateTokenState_capacity_fifo (tokens : TokenMap) (tokenAddress : String)
    (pair : TokenPair) (snapshot : TokenSnapshot) (source : Option Source) (now : Int)
    (h : (storedSnapshots tokens tokenAddress).length ≤ 144) :
    storedSnapshots (updateTokenState tokens tokenAddress pair snapshot source now) tokenAddress =
      (if (storedSnapshots tokens tokenAddress).length < 144
       then storedSnapshots tokens tokenAddress ++ [snapshot]
       else (storedSnapshots tokens tokenAddress).drop 1 ++ [snapshot]) ∧
    (storedSnapshots (updateTokenState tokens tokenAddress pair snapshot source now)
        tokenAddress).length ≤ 144 := by
  rw [storedSnapshots_updateTokenState]
  set old := storedSnapshots tokens tokenAddress with hold
  simp only [List.length_append, List.length_cons, List.length_nil, maxSnapshotsPerToken]
  by_cases hlt : old.length < 144
  · rw [if_neg (by omega), if_pos hlt]
    constructor
    · rfl
    · simp only [List.length_append, List.length_cons, List.length_nil]
      omega
  · have h144 : old.length = 144 := by omega
    rw [if_pos (by omega), if_neg hlt]
    constructor
    · rw [List.drop_append_of_le_length (by omega)]
    · rw [List.drop_append_of_le_length (by omega)]
      simp only [List.length_append, List.length_drop, List.length_cons, List.length_nil]
      omega

/-- Witness for C6 at a concrete store (two stored snapshots, so the
append branch is taken and the bound holds). -/
theorem updateTokenState_capacity_fifo_witness :
    storedSnapshots (updateTokenState tokensA "tok" pairA (mkSnapshot pairA 10000000)
        (some Source.pumpfun) 10000000) "tok" =
      (if (storedSnapshots tokensA "tok").length < 144
       then storedSnapshots tokensA "tok" ++ [mkSnapshot pairA 10000000]
       else (storedSnapshots tokensA "tok").drop 1 ++ [mkSnapshot pairA 10000000]) ∧
    (storedSnapshots (updateTokenState tokensA "tok" pairA (mkSnapshot pairA 10000000)
        (some Source.pumpfun) 10000000) "tok").length ≤ 144 :=
  updateTokenState_capacity_fifo tokensA "tok" pairA (mkSnapshot pairA 10000000)
    (some Source.pumpfun) 10000000 (by decide)

/-! ## The liquidity floor is a hard gate (C3) -/

theorem meetsBasicCriteria_false_of_low_liquidity (cfg : Config) (pair : TokenPair)
    (h : pair.liquidityUsd.getD 0 < cfg.minLiquidityUsd) :
    meetsBasicCriteria cfg pair = false := by
  unfold meetsBasicCriteria
  by_cases h1 : cfg.maxMarketCap ≤ pair.fdv.getD 0 ∨ pair.fdv.getD 0 = 0
  · simp [h1]
  · by_cases h2 : pair.priceUsd ≤ 0
    · simp [h1, h2]
    · simp [h1, h2, h]

/-- Claim C3: whenever the pair's liquidity is below the configured
floor, `checkForSpike` emits no alert, whatever the stored state, the
dormancy verdict and the reported spike magnitude. -/
theorem checkForSpike_liquidity_floor (cfg : Config) (tokens : TokenMap) (pair : TokenPair)
    (now : Int) (h : pair.liquidityUsd.getD 0 < cfg.minLiquidityUsd) :
    (checkForSpike cfg tokens pair now).2 = none := by
  unfold checkForSpike
  cases hsrc : getTokenSource pair with
  | none => rfl
  | some s =>
    simp only [checkForSpikeWith, meetsBasicCriteria_false_of_low_liquidity cfg pair h,
      Bool.not_false, if_pos, Bool.false_eq_true]

/-- Witness for C3: liquidity $1,500 against the $2,000 floor, in a
state where dormancy and the +50% spike magnitude would otherwise
qualify. -/
theorem checkForSpike_liquidity_floor_witness :
    (checkForSpike cfg0 tokensB pairLowLiq 10000000).2 = none :=
  checkForSpike_liquidity_floor cfg0 tokensB pairLowLiq 10000000 (by decide)

/-! ## Dormancy classification (C4, C10) -/

theorem noBigStep_of_zero_prices (l : List TokenSnapshot) (h : ∀ s ∈ l, s.price = 0) :
    noBigStep l = true := by
  induction l with
  | nil => rfl
  | cons a l ih =>
    cases l with
    | nil => rfl
    | cons b r =>
      have ha : a.price = 0 := h a (by simp)
      have hrest : ∀ s ∈ b :: r, s.price = 0 := fun s hs => h s (List.mem_cons_of_mem _ hs)
      have hstep : dormantStep a.price b.price = 0 := by
        rw [ha]
        unfold dormantStep
        rw [if_neg (lt_irrefl 0)]
      show (decide (dormantStep a.price b.price ≤ 10) && noBigStep (b :: r)) = true
      rw [hstep, ih hrest]
      norm_num

/-- Claim C10: the dormancy computation is total on degenerate prices: a
zero first price makes the whole-window drift `0` instead of dividing by
zero, a zero previous price makes the adjacent step `0`, and hence a
window of all-zero prices with qualifying volume is classified dormant. -/
theorem isDormant_total_on_zero_prices (volatilityThreshold volumeThreshold : ℚ)
    (lastPrice currPrice : ℚ) (snaps : List TokenSnapshot)
    (h3 : 3 ≤ snaps.length) (hz : ∀ s ∈ snaps, s.price = 0)
    (hvol : windowVolume snaps < volumeThreshold) (hthr : 0 < volatilityThreshold) :
    dormantDrift 0 lastPrice = 0 ∧ dormantStep 0 currPrice = 0 ∧
    isDormantWindow volatilityThreshold volumeThreshold snaps = true := by
  refine ⟨?_, ?_, ?_⟩
  · unfold dormantDrift
    rw [if_neg (lt_irrefl 0)]
  · unfold dormantStep
    rw [if_neg (lt_irrefl 0)]
  · unfold isDormantWindow
    rw [if_neg (by omega)]
    rw [if_neg (not_le.mpr hvol)]
    have hf : ((snaps.head?.map TokenSnapshot.price).getD 0) = 0 := by
      cases snaps with
      | nil => simp at h3
      | cons a l => simpa using hz a (by simp)
    rw [hf]
    have hdrift : dormantDrift 0 ((snaps.getLast?.map TokenSnapshot.price).getD 0) = 0 := by
      unfold dormantDrift
      rw [if_neg (lt_irrefl 0)]
    rw [hdrift, if_neg (not_le.mpr hthr)]
    exact noBigStep_of_zero_prices snaps hz

/-- Witness for C10: three zero-price snapshots with zero volume are
classified dormant under the default thresholds. -/
theorem isDormant_total_on_zero_prices_witness :
    dormantDrift 0 3 = 0 ∧ dormantStep 0 7 = 0 ∧ isDormantWindow 5 1000 zeroSnaps = true :=
  isDormant_total_on_zero_prices 5 1000 3 7 zeroSnaps (by decide) (by decide)
    (by decide) (by decide)

theorem dormantDrift_eq_raw (f l : ℚ) (hf : 0 ≤ f) :
    dormantDrift f l = |l - f| / f * 100 := by
  unfold dormantDrift
  rcases lt_or_eq_of_le hf with hpos | heq
  · rw [if_pos hpos, abs_div, abs_of_pos hpos]
  · rw [if_neg (by rw [← heq]; exact lt_irrefl 0), ← heq, div_zero, zero_mul]

theorem noBigStep_iff_chain (l : List TokenSnapshot) (h : ∀ s ∈ l, 0 ≤ s.price) :
    noBigStep l = true ↔
      List.Chain' (fun a b => (b.price - a.price) / a.price * 100 ≤ 10) l := by
  induction l with
  | nil => simp [noBigStep]
  | cons a l ih =>
    cases l with
    | nil => simp [noBigStep]
    | cons b r =>
      have ha : 0 ≤ a.price := h a (by simp)
      have hrest : ∀ s ∈ b :: r, 0 ≤ s.price := fun s hs => h s (List.mem_cons_of_mem _ hs)
      have hstep : dormantStep a.price b.price ≤ 10 ↔
          (b.price - a.price) / a.price * 100 ≤ 10 := by
        rcases lt_or_eq_of_le ha with hpos | heq
        · unfold dormantStep
          rw [if_pos hpos]
        · unfold dormantStep
          rw [if_neg (by rw [← heq]; exact lt_irrefl 0), ← heq, div_zero, zero_mul]
      rw [List.chain'_cons]
      show (decide (dormantStep a.price b.price ≤ 10) && noBigStep (b :: r)) = true ↔ _
      rw [Bool.and_eq_true, decide_eq_true_eq, ih hrest, hstep]

/-- Claim C4: with fewer than 3 snapshots the window is never dormant;
with at least 3 (and the nonnegative prices the engine stores) it is
dormant exactly when the cumulative 5m volume is strictly below the
volume threshold, the relative drift `|last − first| / first × 100` is
strictly below the volatility threshold, and no adjacent step exceeds
`+10%`. -/
theorem isDormantWindow_characterization (volatilityThreshold volumeThreshold : ℚ)
    (snaps : List TokenSnapshot) (hpos : ∀ s ∈ snaps, 0 ≤ s.price) :
    (snaps.length < 3 → isDormantWindow volatilityThreshold volumeThreshold snaps = false) ∧
    (3 ≤ snaps.length →
      (isDormantWindow volatilityThreshold volumeThreshold snaps = true ↔
        windowVolume snaps < volumeThreshold ∧
        |((snaps.getLast?.map TokenSnapshot.price).getD 0) -
            ((snaps.head?.map TokenSnapshot.price).getD 0)| /
            ((snaps.head?.map TokenSnapshot.price).getD 0) * 100 < volatilityThreshold ∧
        List.Chain' (fun a b => (b.price - a.price) / a.price * 100 ≤ 10) snaps)) := by
  constructor
  · intro h
    unfold isDormantWindow
    rw [if_pos h]
  · intro h3
    have hf : 0 ≤ ((snaps.head?.map TokenSnapshot.price).getD 0) := by
      cases snaps with
      | nil => simp at h3
      | cons a l => simpa using hpos a (by simp)
    unfold isDormantWindow
    rw [if_neg (by omega), dormantDrift_eq_raw _ _ hf]
    by_cases hv : volumeThreshold ≤ windowVolume snaps
    · rw [if_pos hv]
      simp [not_lt.mpr hv]
    · rw [if_neg hv]
      by_cases hd : volatilityThreshold ≤
          |((snaps.getLast?.map TokenSnapshot.price).getD 0) -
            ((snaps.head?.map TokenSnapshot.price).getD 0)| /
            ((snaps.head?.map TokenSnapshot.price).getD 0) * 100
      · rw [if_pos hd]
        simp [not_lt.mpr hd]
      · rw [if_neg hd, noBigStep_iff_chain snaps hpos]
        simp [not_le.mp hv, not_le.mp hd]

/-- Witness for C4: three constant-price quiet snapshots are dormant
under the default thresholds, via the characterization. -/
theorem isDormantWindow_characterization_witness :
    isDormantWindow 5 1000 quietSnaps = true :=
  ((isDormantWindow_characterization 5 1000 quietSnaps (by decide)).2 (by decide)).mpr
    ⟨by decide, by decide, by norm_num [quietSnaps, snapAt, List.chain'_cons]⟩

/-! ## Universe revalidation mutates only membership (C9) -/

theorem hasToken_addToken_self (l : TrackedSet) (a : String) :
    (l.addToken a).hasToken a = true := by
  unfold TrackedSet.addToken TrackedSet.hasToken
  by_cases h : a ∈ l <;> simp [h]

theorem hasToken_addToken_ne (l : TrackedSet) (a b : String) (h : b ≠ a) :
    (l.addToken a).hasToken b = l.hasToken b := by
  unfold TrackedSet.addToken TrackedSet.hasToken
  by_cases hc : a ∈ l <;> simp [hc, List.mem_cons, h]

theorem hasToken_deleteToken_self (l : TrackedSet) (a : String) :
    (l.deleteToken a).hasToken a = false := by
  unfold TrackedSet.deleteToken TrackedSet.hasToken
  simp [List.mem_filter]

theorem hasToken_deleteToken_ne (l : TrackedSet) (a b : String) (h : b ≠ a) :
    (l.deleteToken a).hasToken b = l.hasToken b := by
  unfold TrackedSet.deleteToken TrackedSet.hasToken
  simp [List.mem_filter, h]

/-- Claim C9: `updateTokenEligibility` never touches the per-asset state
map; membership of every other identity is unchanged; on a successful
re-fetch the identity is tracked afterwards exactly when some fetched
pair passes the eligibility predicate (so it is removed exactly when the
re-fetched data fails it); the error path changes nothing. -/
theorem updateTokenEligibility_frame (cfg : Config) (sys : SystemState)
    (tokenAddress : String) (fetched : Except Unit (List TokenPair)) (now : Int) :
    ((updateTokenEligibility cfg sys tokenAddress fetched now).1.tokens = sys.tokens) ∧
    (∀ a, a ≠ tokenAddress →
      (updateTokenEligibility cfg sys tokenAddress fetched now).1.trackedTokens.hasToken a =
        sys.trackedTokens.hasToken a) ∧
    (∀ pairs, fetched = Except.ok pairs →
      (updateTokenEligibility cfg sys tokenAddress fetched now).1.trackedTokens.hasToken
          tokenAddress =
        decide (0 < (filterEligiblePairs cfg now pairs).length)) ∧
    (∀ e, fetched = Except.error e →
      (updateTokenEligibility cfg sys tokenAddress fetched now).1 = sys) := by
  cases fetched with
  | error e =>
    refine ⟨rfl, fun a _ => rfl, ?_, fun _ _ => rfl⟩
    intro pairs hp
    cases hp
  | ok pairs =>
    simp only [updateTokenEligibility]
    by_cases hlen : 0 < (filterEligiblePairs cfg now pairs).length
    · rw [if_pos hlen]
      refine ⟨rfl, ?_, ?_, ?_⟩
      · intro a ha
        exact hasToken_addToken_ne _ _ _ ha
      · intro pairs' hp
        cases hp
        rw [hasToken_addToken_self, decide_eq_true hlen]
      · intro e he
        cases he
    · rw [if_neg hlen]
      refine ⟨rfl, ?_, ?_, ?_⟩
      · intro a ha
        exact hasToken_deleteToken_ne _ _ _ ha
      · intro pairs' hp
        cases hp
        rw [hasToken_deleteToken_self, decide_eq_false hlen]
      · intro e he
        cases he

/-- Witness for C9: an error-path call leaves the whole system state
unchanged. -/
theorem updateTokenEligibility_frame_witness :
    (updateTokenEligibility cfg0 ⟨["tok"], tokensA⟩ "tok"
        (Except.error ()) 10000000).1.tokens = tokensA :=
  (updateTokenEligibility_frame cfg0 ⟨["tok"], tokensA⟩ "tok" (Except.error ()) 10000000).1

/-! ## Source gate and source immutability (C7) -/

theorem setLastAlert_source (st : TokenState) (t : Tier) (ts : Int) :
    (st.setLastAlert t ts).source = st.source := by
  cases t <;> rfl

theorem updateTokenState_find?_ne (tokens : TokenMap) (k : String) (pair : TokenPair)
    (snap : TokenSnapshot) (src : Option Source) (now : Int) (a : String) (h : a ≠ k) :
    (updateTokenState tokens k pair snap src now).find? a = tokens.find? a := by
  simp only [updateTokenState]
  exact TokenMap.find?_set_ne _ _ _ _ (fun e => h e.symm)

theorem updateTokenState_fst_source_map (tokens : TokenMap) (k : String) (pair : TokenPair)
    (snap : TokenSnapshot) (src : Option Source) (now : Int) (a : String) :
    ((updateTokenState tokens k pair snap src now).find? a).map TokenState.source =
      (if a = k then
        some (match tokens.find? k with
              | none => src
              | some st => st.source.or src)
       else (tokens.find? a).map TokenState.source) := by
  by_cases ha : a = k
  · subst ha
    simp only [updateTokenState, if_pos rfl, TokenMap.find?_set_self]
    cases h : tokens.find? a with
    | none => simp [freshState]
    | some st => simp [backfillSource_source]
  · rw [updateTokenState_find?_ne _ _ _ _ _ _ _ ha, if_neg ha]

theorem recordAlert_fst_source_map (tokens : TokenMap) (k : String) (tier : Tier)
    (now : Int) (a : String) :
    ((recordAlert tokens k tier now).find? a).map TokenState.source =
      (tokens.find? a).map TokenState.source := by
  unfold recordAlert
  cases h : tokens.find? k with
  | none => rfl
  | some st =>
    by_cases ha : a = k
    · subst ha
      rw [TokenMap.find?_set_self, h]
      simp [setLastAlert_source]
    · rw [TokenMap.find?_set_ne _ _ _ _ (fun e => ha e.symm)]

theorem checkForSpikeWith_fst (cfg : Config) (tokens1 : TokenMap) (pair : TokenPair)
    (source : Source) (now : Int) :
    (checkForSpikeWith cfg tokens1 pair source now).1 = tokens1 ∨
    ∃ tier, (checkForSpikeWith cfg tokens1 pair source now).1 =
        recordAlert tokens1 pair.baseTokenAddress tier now := by
  unfold checkForSpikeWith
  by_cases hb : meetsBasicCriteria cfg pair
  · simp only [hb, Bool.not_true, Bool.false_eq_true, if_false]
    by_cases hd : isDormant tokens1 pair.baseTokenAddress cfg.dormantVolatilityThreshold
        cfg.dormantVolumeThreshold cfg.baselinePeriodMinutes now
    · simp only [hd, Bool.not_true, Bool.false_eq_true, if_false]
      cases ht : selectTier cfg tokens1 pair.baseTokenAddress
          ((mkSnapshot pair now).priceChange5m) now with
      | none => left; trivial
      | some tier => right; exact ⟨tier, rfl⟩
    · simp only [hd, Bool.not_false, if_true]
      left; trivial
  · simp only [Bool.not_eq_true', Bool.not_eq_false] at hb
    simp only [hb, Bool.not_false, if_true]
    left; trivial

theorem checkForSpike_fst_source_map (cfg : Config) (tokens : TokenMap) (pair : TokenPair)
    (now : Int) (a : String) :
    ((checkForSpike cfg tokens pair now).1.find? a).map TokenState.source =
      (match getTokenSource pair with
       | none => (tokens.find? a).map TokenState.source
       | some s =>
          if a = pair.baseTokenAddress then
            some (match tokens.find? a with
                  | none => some s
                  | some st => st.source.or (some s))
          else (tokens.find? a).map TokenState.source) := by
  unfold checkForSpike
  cases hsrc : getTokenSource pair with
  | none => rfl
  | some s =>
    show ((checkForSpikeWith cfg
        (updateTokenState tokens pair.baseTokenAddress pair (mkSnapshot pair now)
          (some s) now) pair s now).1.find? a).map TokenState.source =
      (if a = pair.baseTokenAddress then
        some (match tokens.find? a with
              | none => some s
              | some st => st.source.or (some s))
       else (tokens.find? a).map TokenState.source)
    have hupd := updateTokenState_fst_source_map tokens pair.baseTokenAddress pair
      (mkSnapshot pair now) (some s) now a
    rcases checkForSpikeWith_fst cfg
        (updateTokenState tokens pair.baseTokenAddress pair (mkSnapshot pair now) (some s) now)
        pair s now with hfst | ⟨tier, hfst⟩
    · rw [hfst, hupd]
      by_cases ha : a = pair.baseTokenAddress
      · subst ha
        rfl
      · rw [if_neg ha, if_neg ha]
    · rw [hfst, recordAlert_fst_source_map, hupd]
      by_cases ha : a = pair.baseTokenAddress
      · subst ha
        rfl
      · rw [if_neg ha, if_neg ha]

/-- Claim C7: an unresolved source hint makes `checkForSpike` return no
alert while leaving the state map untouched; consequently the invariant
that no stored asset has `source = none` is preserved by every
evaluation, and a source once set to a value is never overwritten. -/
theorem checkForSpike_source_gate (cfg : Config) (tokens : TokenMap) (pair : TokenPair)
    (now : Int) :
    (getTokenSource pair = none → checkForSpike cfg tokens pair now = (tokens, none)) ∧
    ((∀ a st, tokens.find? a = some st → st.source ≠ none) →
      ∀ a st, (checkForSpike cfg tokens pair now).1.find? a = some st → st.source ≠ none) ∧
    (∀ a s, (tokens.find? a).map TokenState.source = some (some s) →
      ((checkForSpike cfg tokens pair now).1.find? a).map TokenState.source = some (some s)) := by
  refine ⟨?_, ?_, ?_⟩
  · intro h
    unfold checkForSpike
    rw [h]
  · intro hinv a st hfind
    intro hnone
    have hmap : ((checkForSpike cfg tokens pair now).1.find? a).map TokenState.source =
        some none := by rw [hfind, Option.map_some', hnone]
    rw [checkForSpike_fst_source_map] at hmap
    cases hsrc : getTokenSource pair with
    | none =>
      rw [hsrc] at hmap
      simp only [Option.map_eq_some'] at hmap
      obtain ⟨st0, hst0, hsrc0⟩ := hmap
      exact hinv a st0 hst0 hsrc0
    | some s =>
      rw [hsrc] at hmap
      have hmap' : (if a = pair.baseTokenAddress then
          some (match tokens.find? a with
                | none => some s
                | some st => st.source.or (some s))
        else Option.map TokenState.source (tokens.find? a)) = some none := hmap
      by_cases ha : a = pair.baseTokenAddress
      · rw [if_pos ha] at hmap'
        cases hfa : tokens.find? a with
        | none =>
          rw [hfa] at hmap'
          have hmap2 : some (some s) = (some none : Option (Option Source)) := hmap'
          simp at hmap2
        | some st0 =>
          rw [hfa] at hmap'
          have hmap2 : some (st0.source.or (some s)) = (some none : Option (Option Source)) :=
            hmap'
          have h0 : st0.source ≠ none := hinv a st0 hfa
          cases hs0 : st0.source with
          | none => exact h0 hs0
          | some s0 =>
            rw [hs0] at hmap2
            simp [Option.or] at hmap2
      · rw [if_neg ha] at hmap'
        simp only [Option.map_eq_some'] at hmap'
        obtain ⟨st0, hst0, hsrc0⟩ := hmap'
        exact hinv a st0 hst0 hsrc0
  · intro a s hs
    rw [checkForSpike_fst_source_map]
    cases hsrc : getTokenSource pair with
    | none => exact hs
    | some s0 =>
      show (if a = pair.baseTokenAddress then
          some (match tokens.find? a with
                | none => some s0
                | some st => st.source.or (some s0))
        else Option.map TokenState.source (tokens.find? a)) = some (some s)
      by_cases ha : a = pair.baseTokenAddress
      · rw [if_pos ha]
        simp only [Option.map_eq_some'] at hs
        obtain ⟨st0, hst0, hsrc0⟩ := hs
        rw [hst0]
        show some (st0.source.or (some s0)) = some (some s)
        rw [hsrc0]
        rfl
      · rw [if_neg ha]
        exact hs

/-- Witness for C7: a pair whose `dexId` resolves to no permitted origin
is rejected without touching the map, instantiating the first conjunct;
the other conjuncts are instantiated on the same concrete state. -/
theorem checkForSpike_source_gate_witness :
    checkForSpike cfg0 tokensA { pairA with dexId := "raydium" } 10000000 =
      (tokensA, none) :=
  (checkForSpike_source_gate cfg0 tokensA { pairA with dexId := "raydium" } 10000000).1
    (by decide)

/-! ## Retry with exponential backoff (C8) -/

theorem delaysFrom_zero (d : ℚ) (k : Nat) : delaysFrom d k 0 = [] := by
  simp [delaysFrom]

theorem delaysFrom_succ (d : ℚ) (k n : Nat) :
    delaysFrom d k (n + 1) = d * 2 ^ (k - 1) :: delaysFrom d (k + 1) n := by
  unfold delaysFrom
  rw [List.range_succ_eq_map, List.map_cons, List.map_map]
  have hhead : d * 2 ^ (k + 0 - 1) = d * 2 ^ (k - 1) := by norm_num
  have htail : List.map ((fun i => d * 2 ^ (k + i - 1)) ∘ Nat.succ) (List.range n) =
      List.map (fun i => d * 2 ^ (k + 1 + i - 1)) (List.range n) := by
    apply List.map_congr_left
    intro i _
    have hexp : k + Nat.succ i - 1 = k + 1 + i - 1 := by omega
    simp only [Function.comp_apply, hexp]
  rw [hhead, htail]

theorem retryFrom_calls_le (d : ℚ) (k : Nat) (outs : List (Except E A)) :
    (retryFrom d k outs).calls ≤ outs.length := by
  induction outs generalizing k with
  | nil => simp [retryFrom]
  | cons o rest ih =>
    cases o with
    | ok a => simp [retryFrom]
    | error e =>
      cases rest with
      | nil => simp [retryFrom]
      | cons r rs =>
        have h := ih (k + 1)
        simp only [retryFrom, List.length_cons] at h ⊢
        omega

theorem retryFrom_calls_pos (d : ℚ) (k : Nat) (o : Except E A) (rest : List (Except E A)) :
    1 ≤ (retryFrom d k (o :: rest)).calls := by
  cases o with
  | ok a => simp [retryFrom]
  | error e =>
    cases rest with
    | nil => simp [retryFrom]
    | cons r rs =>
      simp only [retryFrom]
      omega

theorem retryFrom_delays_eq (d : ℚ) (k : Nat) (outs : List (Except E A)) :
    (retryFrom d k outs).delays = delaysFrom d k ((retryFrom d k outs).calls - 1) := by
  induction outs generalizing k with
  | nil => simp [retryFrom, delaysFrom_zero]
  | cons o rest ih =>
    cases o with
    | ok a => simp [retryFrom, delaysFrom_zero]
    | error e =>
      cases rest with
      | nil => simp [retryFrom, delaysFrom_zero]
      | cons r rs =>
        have hpos := retryFrom_calls_pos d (k + 1) r rs
        have h := ih (k + 1)
        simp only [retryFrom] at h ⊢
        rw [h]
        have hc : (retryFrom d (k + 1) (r :: rs)).calls + 1 - 1 =
            ((retryFrom d (k + 1) (r :: rs)).calls - 1) + 1 := by omega
        rw [hc, delaysFrom_succ]

theorem retryFrom_success (d : ℚ) (k : Nat) (es : List E) (a : A)
    (post : List (Except E A)) :
    retryFrom d k (es.map Except.error ++ (Except.ok a :: post)) =
      ⟨es.length + 1, hooksFrom k es, delaysFrom d k es.length, Except.ok a⟩ := by
  induction es generalizing k with
  | nil => simp [retryFrom, hooksFrom, delaysFrom_zero]
  | cons e es ih =>
    cases es with
    | nil =>
      show retryFrom d k (Except.error e :: Except.ok a :: post) = _
      simp [retryFrom, hooksFrom, delaysFrom_succ, delaysFrom_zero]
    | cons e2 es2 =>
      have h := ih (k + 1)
      simp only [List.map_cons, List.cons_append, List.length_cons] at h ⊢
      simp [retryFrom, h, hooksFrom, delaysFrom_succ]

theorem retryFrom_allfail (d : ℚ) (k : Nat) (es : List E) :
    retryFrom d k (es.map (Except.error : E → Except E A)) =
      ⟨es.length, hooksFrom k es, delaysFrom d k (es.length - 1),
        Except.error es.getLast?⟩ := by
  induction es generalizing k with
  | nil => simp [retryFrom, hooksFrom, delaysFrom_zero]
  | cons e es ih =>
    cases es with
    | nil => simp [retryFrom, hooksFrom, delaysFrom_zero]
    | cons e2 es2 =>
      have h := ih (k + 1)
      simp only [List.map_cons, List.length_cons] at h ⊢
      simp [retryFrom, h, hooksFrom, delaysFrom_succ, List.getLast?_cons_cons]

/-- Claim C8: `ErrorHandler.retry` runs the operation at most
`maxAttempts` times; its backoff schedule is `baseDelay × 2^(attempt−1)`
and is a function of the failure count alone (never of error content);
when the first success is preceded by failures it returns that success
immediately, having invoked the failure hook once per preceding failure
and slept once per failure that left attempts remaining; when every
attempt fails it propagates the last failure. -/
theorem retry_exponential_backoff (E A : Type) (d : ℚ) (outs : List (Except E A)) :
    ((ErrorHandler.retry outs d).calls ≤ outs.length) ∧
    ((ErrorHandler.retry outs d).delays =
      delaysFrom d 1 ((ErrorHandler.retry outs d).calls - 1)) ∧
    (∀ (es : List E) (a : A) (post : List (Except E A)),
      outs = es.map Except.error ++ (Except.ok a :: post) →
      ErrorHandler.retry outs d =
        ⟨es.length + 1, hooksFrom 1 es, delaysFrom d 1 es.length, Except.ok a⟩) ∧
    (∀ es : List E, outs = es.map Except.error →
      ErrorHandler.retry outs d =
        ⟨es.length, hooksFrom 1 es, delaysFrom d 1 (es.length - 1),
          Except.error es.getLast?⟩) := by
  refine ⟨retryFrom_calls_le d 1 outs, retryFrom_delays_eq d 1 outs, ?_, ?_⟩
  · intro es a post h
    rw [h]
    exact retryFrom_success d 1 es a post
  · intro es h
    rw [h]
    exact retryFrom_allfail d 1 es

/-- Witness for C8: one failure then a success — two invocations, one
hook call `(error, attempt 1)`, one backoff delay of `d × 2^0 = 5`, and
the successful result. -/
theorem retry_exponential_backoff_witness :
    ErrorHandler.retry [Except.error 9, Except.ok 7] (5 : ℚ) =
      ⟨2, [(9, 1)], [5], Except.ok 7⟩ := by
  have h := (retry_exponential_backoff Nat Nat 5 [Except.error 9, Except.ok 7]).2.2.1
    [9] 7 [] rfl
  simpa [hooksFrom, delaysFrom] using h

/-! ## Tier selection boundaries and priority (C5) -/

/-- Claim C5: when the source, eligibility and dormancy gates pass with
both tiers enabled and both `(identity, tier)` pairs armed, a reported
`priceChange_5m` of exactly `50.0` selects `tier50` (never `tier25`),
`24.999` selects no tier, and any value `≥ 50` selects `tier50` — the
tier-50 check runs first and wins ties. -/
theorem checkForSpike_tier_selection (cfg : Config) (tokens : TokenMap)
    (pair : TokenPair) (now : Int) (s : Source)
    (hsrc : getTokenSource pair = some s)
    (hbasic : meetsBasicCriteria cfg pair = true)
    (hdormant : isDormant
      (updateTokenState tokens pair.baseTokenAddress pair (mkSnapshot pair now) (some s) now)
      pair.baseTokenAddress cfg.dormantVolatilityThreshold cfg.dormantVolumeThreshold
      cfg.baselinePeriodMinutes now = true)
    (h50 : cfg.alertThreshold50 = true) (_h25 : cfg.alertThreshold25 = true)
    (harm50 : isInCooldown
      (updateTokenState tokens pair.baseTokenAddress pair (mkSnapshot pair now) (some s) now)
      pair.baseTokenAddress Tier.tier50 cfg.alertCooldownMs now = false)
    (_harm25 : isInCooldown
      (updateTokenState tokens pair.baseTokenAddress pair (mkSnapshot pair now) (some s) now)
      pair.baseTokenAddress Tier.tier25 cfg.alertCooldownMs now = false) :
    (∀ pc : ℚ, pair.priceChangeM5 = some pc → 50 ≤ pc →
      ((checkForSpike cfg tokens pair now).2.map SpikeAlert.tier) = some Tier.tier50) ∧
    (pair.priceChangeM5 = some 50 →
      ((checkForSpike cfg tokens pair now).2.map SpikeAlert.tier) = some Tier.tier50) ∧
    (pair.priceChangeM5 = some (24999 / 1000) →
      (checkForSpike cfg tokens pair now).2 = none) := by
  have hbody : checkForSpike cfg tokens pair now =
      checkForSpikeWith cfg
        (updateTokenState tokens pair.baseTokenAddress pair (mkSnapshot pair now)
          (some s) now) pair s now := by
    unfold checkForSpike
    rw [hsrc]
  have hhigh : ∀ pc : ℚ, pair.priceChangeM5 = some pc → 50 ≤ pc →
      ((checkForSpike cfg tokens pair now).2.map SpikeAlert.tier) = some Tier.tier50 := by
    intro pc hpc hge
    have hpc5 : (mkSnapshot pair now).priceChange5m = pc := by
      simp [mkSnapshot, hpc]
    rw [hbody]
    unfold checkForSpikeWith
    rw [hbasic, hdormant]
    simp only [Bool.not_true, Bool.false_eq_true, if_false]
    unfold selectTier
    rw [hpc5, h50, harm50, decide_eq_true hge]
    simp [spikeAlertOf]
  refine ⟨hhigh, fun h => hhigh 50 h le_rfl, ?_⟩
  · intro hpc
    have hpc5 : (mkSnapshot pair now).priceChange5m = 24999 / 1000 := by
      simp [mkSnapshot, hpc]
    rw [hbody]
    unfold checkForSpikeWith
    rw [hbasic, hdormant]
    simp only [Bool.not_true, Bool.false_eq_true, if_false]
    unfold selectTier
    rw [hpc5]
    rw [decide_eq_false (by norm_num : ¬ (50 : ℚ) ≤ 24999 / 1000),
      decide_eq_false (by norm_num : ¬ (25 : ℚ) ≤ 24999 / 1000)]
    simp

/-- Witness for C5: the concrete armed dormant state fires `tier50` at a
reported `+50.0%` and fires nothing at `+24.999%`. -/
theorem checkForSpike_tier_selection_witness :
    ((checkForSpike cfg0 tokensA pairA 10000000).2.map SpikeAlert.tier) =
        some Tier.tier50 ∧
    (checkForSpike cfg0 tokensA pair24 10000000).2 = none :=
  ⟨(checkForSpike_tier_selection cfg0 tokensA pairA 10000000 Source.pumpfun
      (by decide) (by decide) (by decide) (by decide) (by decide) (by decide)
      (by decide)).2.1 (by decide),
   (checkForSpike_tier_selection cfg0 tokensA pair24 10000000 Source.pumpfun
      (by decide) (by decide) (by decide) (by decide) (by decide) (by decide)
      (by decide)).2.2 (by decide)⟩

/-! ## Cooldown exclusion (C1) -/

theorem updateTokenState_lastAlert_map (tokens : TokenMap) (k : String) (pair : TokenPair)
    (snap : TokenSnapshot) (src : Option Source) (now : Int) (tr : Tier) :
    ((updateTokenState tokens k pair snap src now).find? k).map (fun s => s.lastAlert tr) =
      some ((tokens.find? k).bind (fun st => st.lastAlert tr)) := by
  simp only [updateTokenState, TokenMap.find?_set_self]
  cases h : tokens.find? k with
  | none => cases tr <;> simp [freshState, TokenState.lastAlert]
  | some st =>
    cases tr <;>
      simp [TokenState.lastAlert, backfillSource_lastAlertTier25,
        backfillSource_lastAlertTier50]

theorem recordAlert_find?_ne (tokens : TokenMap) (k : String) (tier : Tier) (now : Int)
    (a : String) (h : a ≠ k) :
    (recordAlert tokens k tier now).find? a = tokens.find? a := by
  unfold recordAlert
  cases hf : tokens.find? k with
  | none => rfl
  | some st => exact TokenMap.find?_set_ne _ _ _ _ (fun e => h e.symm)

theorem recordAlert_lastAlert_self (tokens : TokenMap) (k : String) (tier : Tier)
    (now : Int) (st : TokenState) (h : tokens.find? k = some st) :
    ((recordAlert tokens k tier now).find? k).map (fun s => s.lastAlert tier) =
      some (some now) := by
  unfold recordAlert
  rw [h]
  rw [TokenMap.find?_set_self, Option.map_some', TokenState.lastAlert_setLastAlert_self]

theorem recordAlert_lastAlert_ne_map (tokens : TokenMap) (k : String) (tier : Tier)
    (now : Int) (tr : Tier) (h : tr ≠ tier) :
    ((recordAlert tokens k tier now).find? k).map (fun s => s.lastAlert tr) =
      (tokens.find? k).map (fun s => s.lastAlert tr) := by
  unfold recordAlert
  cases hf : tokens.find? k with
  | none =>
    show (tokens.find? k).map (fun s => s.lastAlert tr) =
      Option.map (fun s => s.lastAlert tr) (none : Option TokenState)
    rw [hf]
  | some st =>
    show ((tokens.set k (st.setLastAlert tier now)).find? k).map (fun s => s.lastAlert tr) =
      Option.map (fun s => s.lastAlert tr) (some st)
    rw [TokenMap.find?_set_self, Option.map_some', Option.map_some',
      TokenState.lastAlert_setLastAlert_ne _ _ _ _ h]

theorem selectTier_not_in_cooldown (cfg : Config) (tokens : TokenMap) (a : String)
    (pc : ℚ) (now : Int) (tier : Tier)
    (h : selectTier cfg tokens a pc now = some tier) :
    isInCooldown tokens a tier cfg.alertCooldownMs now = false := by
  unfold selectTier at h
  split at h
  · rename_i hcond
    cases h
    simp only [Bool.and_eq_true, Bool.not_eq_true'] at hcond
    exact hcond.2
  · split at h
    · rename_i hcond
      cases h
      simp only [Bool.and_eq_true, Bool.not_eq_true'] at hcond
      exact hcond.2
    · cases h

theorem isInCooldown_true_of_stamp (tokens : TokenMap) (addr : String) (tr : Tier)
    (cd t T : Int)
    (hst : (tokens.find? addr).map (fun s => s.lastAlert tr) = some (some T))
    (hT0 : T ≠ 0) (ht : t - T < cd) :
    isInCooldown tokens addr tr cd t = true := by
  obtain ⟨st, hfind, hla⟩ := Option.map_eq_some'.mp hst
  unfold isInCooldown
  rw [hfind]
  show (match st.lastAlert tr with
        | none => false
        | some ts => if ts = 0 then false else decide (t - ts < cd)) = true
  rw [hla]
  show (if T = 0 then false else decide (t - T < cd)) = true
  rw [if_neg hT0, decide_eq_true ht]

theorem checkForSpike_preserves_stamp (cfg : Config) (tokens : TokenMap) (q : TokenPair)
    (t : Int) (addr : String) (tr : Tier) (T : Int)
    (hst : (tokens.find? addr).map (fun s => s.lastAlert tr) = some (some T))
    (hT0 : T ≠ 0) (ht : t - T < cfg.alertCooldownMs) :
    (((checkForSpike cfg tokens q t).1.find? addr).map (fun s => s.lastAlert tr) =
      some (some T)) ∧
    (∀ al, (checkForSpike cfg tokens q t).2 = some al →
      ¬(al.tokenAddress = addr ∧ al.tier = tr)) := by
  unfold checkForSpike
  cases hsrc : getTokenSource q with
  | none =>
    refine ⟨hst, ?_⟩
    intro al hal
    cases hal
  | some s =>
    have hst1 : ((updateTokenState tokens q.baseTokenAddress q (mkSnapshot q t)
        (some s) t).find? addr).map (fun st => st.lastAlert tr) = some (some T) := by
      by_cases ha : addr = q.baseTokenAddress
      · subst ha
        rw [updateTokenState_lastAlert_map]
        obtain ⟨st, hfind, hla⟩ := Option.map_eq_some'.mp hst
        rw [hfind, Option.some_bind, hla]
      · rw [updateTokenState_find?_ne _ _ _ _ _ _ _ ha]
        exact hst
    unfold checkForSpikeWith
    by_cases hb : meetsBasicCriteria cfg q
    · simp only [hb, Bool.not_true, Bool.false_eq_true, if_false]
      by_cases hd : isDormant
          (updateTokenState tokens q.baseTokenAddress q (mkSnapshot q t) (some s) t)
          q.baseTokenAddress cfg.dormantVolatilityThreshold cfg.dormantVolumeThreshold
          cfg.baselinePeriodMinutes t
      · simp only [hd, Bool.not_true, Bool.false_eq_true, if_false]
        cases hsel : selectTier cfg
            (updateTokenState tokens q.baseTokenAddress q (mkSnapshot q t) (some s) t)
            q.baseTokenAddress ((mkSnapshot q t).priceChange5m) t with
        | none =>
          refine ⟨hst1, ?_⟩
          intro al hal
          cases hal
        | some tier =>
          have hne : ¬(addr = q.baseTokenAddress ∧ tier = tr) := by
            rintro ⟨ha, htr⟩
            subst ha
            subst htr
            have hcool := selectTier_not_in_cooldown cfg _ _ _ _ _ hsel
            rw [isInCooldown_true_of_stamp _ _ _ _ _ T hst1 hT0 ht] at hcool
            cases hcool
          constructor
          · by_cases ha : addr = q.baseTokenAddress
            · subst ha
              have htr : tr ≠ tier := fun e => hne ⟨rfl, e.symm⟩
              rw [recordAlert_lastAlert_ne_map _ _ _ _ _ htr]
              exact hst1
            · rw [recordAlert_find?_ne _ _ _ _ _ ha]
              exact hst1
          · intro al hal
            cases hal
            rintro ⟨hadr, htr⟩
            exact hne ⟨hadr.symm ▸ rfl, htr⟩
      · simp only [hd, Bool.not_false, if_true]
        refine ⟨hst1, ?_⟩
        intro al hal
        cases hal
    · simp only [Bool.not_eq_true', Bool.not_eq_false] at hb
      simp only [hb, Bool.not_false, if_true]
      refine ⟨hst1, ?_⟩
      intro al hal
      cases hal

theorem runCalls_suppressed (cfg : Config) (addr : String) (tr : Tier) (T : Int)
    (hT0 : T ≠ 0) :
    ∀ (calls : List (TokenPair × Int)) (tokens : TokenMap),
      ((tokens.find? addr).map (fun s => s.lastAlert tr) = some (some T)) →
      (∀ c ∈ calls, c.2 - T < cfg.alertCooldownMs) →
      (runCalls cfg tokens calls).2.filter
        (fun a => decide (a.tokenAddress = addr ∧ a.tier = tr)) = [] := by
  intro calls
  induction calls with
  | nil =>
    intro tokens _ _
    rfl
  | cons c rest ih =>
    intro tokens hst hlt
    obtain ⟨q, t⟩ := c
    have hc := checkForSpike_preserves_stamp cfg tokens q t addr tr T hst hT0
      (hlt (q, t) (by simp))
    simp only [runCalls]
    rw [List.filter_append]
    have hrest := ih (checkForSpike cfg tokens q t).1 hc.1
      (fun c hcm => hlt c (List.mem_cons_of_mem _ hcm))
    rw [hrest]
    cases hstep : (checkForSpike cfg tokens q t).2 with
    | none => simp
    | some al =>
      simp [Option.toList]
      intro h1 h2
      exact hc.2 al hstep ⟨h1, h2⟩

theorem checkForSpike_fired (cfg : Config) (tokens : TokenMap) (pair : TokenPair)
    (T : Int) (alert : SpikeAlert)
    (h : (checkForSpike cfg tokens pair T).2 = some alert) :
    alert.tokenAddress = pair.baseTokenAddress ∧
    (((checkForSpike cfg tokens pair T).1.find? alert.tokenAddress).map
      (fun s => s.lastAlert alert.tier) = some (some T)) := by
  unfold checkForSpike at h ⊢
  cases hsrc : getTokenSource pair with
  | none =>
    rw [hsrc] at h
    replace h : (none : Option SpikeAlert) = some alert := h
    exact Option.noConfusion h
  | some s =>
    rw [hsrc] at h
    replace h : (checkForSpikeWith cfg
        (updateTokenState tokens pair.baseTokenAddress pair (mkSnapshot pair T) (some s) T)
        pair s T).2 = some alert := h
    show alert.tokenAddress = pair.baseTokenAddress ∧
      (((checkForSpikeWith cfg
          (updateTokenState tokens pair.baseTokenAddress pair (mkSnapshot pair T) (some s) T)
          pair s T).1.find? alert.tokenAddress).map
        (fun s2 => s2.lastAlert alert.tier) = some (some T))
    unfold checkForSpikeWith at h ⊢
    by_cases hb : meetsBasicCriteria cfg pair
    · simp only [hb, Bool.not_true, Bool.false_eq_true, if_false] at h ⊢
      by_cases hd : isDormant
          (updateTokenState tokens pair.baseTokenAddress pair (mkSnapshot pair T) (some s) T)
          pair.baseTokenAddress cfg.dormantVolatilityThreshold cfg.dormantVolumeThreshold
          cfg.baselinePeriodMinutes T
      · simp only [hd, Bool.not_true, Bool.false_eq_true, if_false] at h ⊢
        cases hsel : selectTier cfg
            (updateTokenState tokens pair.baseTokenAddress pair (mkSnapshot pair T) (some s) T)
            pair.baseTokenAddress ((mkSnapshot pair T).priceChange5m) T with
        | none =>
          rw [hsel] at h
          replace h : (none : Option SpikeAlert) = some alert := h
          exact Option.noConfusion h
        | some tier =>
          rw [hsel] at h
          replace h : some (spikeAlertOf pair s tier T) = some alert := h
          cases h
          refine ⟨rfl, ?_⟩
          have hmap := updateTokenState_lastAlert_map tokens pair.baseTokenAddress pair
            (mkSnapshot pair T) (some s) T tier
          obtain ⟨st1, hfind1, _⟩ := Option.map_eq_some'.mp hmap
          exact recordAlert_lastAlert_self _ _ _ _ _ hfind1
      · simp only [hd, Bool.not_false, if_true] at h
        cases h
    · simp only [Bool.not_eq_true', Bool.not_eq_false] at hb
      simp only [hb, Bool.not_false, if_true] at h
      cases h

/-- Claim C1: once `checkForSpike` fires an alert for an
`(identity, tier)` pair at time `T`, the cooldown stamp
`lastAlertTimestamp[tier] = T` is already written in the map returned by
that same evaluation (before any delivery could happen), and no sequence
of further `checkForSpike` evaluations at times before `T + cooldown`
emits another alert for the same identity and tier. -/
theorem checkForSpike_cooldown_exclusion (cfg : Config) (tokens : TokenMap)
    (pair : TokenPair) (T : Int) (alert : SpikeAlert) (calls : List (TokenPair × Int))
    (hT : 0 < T)
    (hfire : (checkForSpike cfg tokens pair T).2 = some alert)
    (htimes : ∀ c ∈ calls, c.2 < T + cfg.alertCooldownMs) :
    (((checkForSpike cfg tokens pair T).1.find? alert.tokenAddress).map
        (fun s => s.lastAlert alert.tier) = some (some T)) ∧
    (runCalls cfg (checkForSpike cfg tokens pair T).1 calls).2.filter
        (fun a => decide (a.tokenAddress = alert.tokenAddress ∧ a.tier = alert.tier)) =
      [] := by
  have hfired := checkForSpike_fired cfg tokens pair T alert hfire
  refine ⟨hfired.2, ?_⟩
  exact runCalls_suppressed cfg alert.tokenAddress alert.tier T (by omega) calls
    (checkForSpike cfg tokens pair T).1 hfired.2
    (fun c hc => by have := htimes c hc; omega)

/-- Witness for C1: after the tier-50 alert fires at `T = 10000000`, two
further qualifying evaluations 1 and 2 minutes later (inside the
30-minute cooldown) emit no tier-50 alert for the same identity, and the
stamp is already in the returned map. -/
theorem checkForSpike_cooldown_exclusion_witness :
    (((checkForSpike cfg0 tokensA pairA 10000000).1.find? alertA.tokenAddress).map
        (fun s => s.lastAlert alertA.tier) = some (some 10000000)) ∧
    (runCalls cfg0 (checkForSpike cfg0 tokensA pairA 10000000).1
        [(pairA, 10060000), (pairA, 10120000)]).2.filter
        (fun a => decide (a.tokenAddress = alertA.tokenAddress ∧ a.tier = alertA.tier)) =
      [] :=
  checkForSpike_cooldown_exclusion cfg0 tokensA pairA 10000000 alertA
    [(pairA, 10060000), (pairA, 10120000)] (by decide) (by decide) (by decide)

/-! ## The dormancy gate examines the just-appended snapshot (C2) -/

/-- Claim C2 fails on the code: `checkForSpike` appends the incoming
snapshot *before* consulting the dormancy classifier, and the appended
snapshot (timestamp `now`) always lies inside the baseline window.  At
this concrete input the stored state is dormant over the baseline window
just before the snapshot, every other gate passes and `priceChange_5m =
30` would select an armed `tier25` — yet the evaluation emits no alert,
because the appended spike snapshot itself (price 1 → 2, a +100% step)
breaks the dormancy check the code performs after the append. -/
theorem checkForSpike_baseline_includes_spike_snapshot :
    isDormantWindow cfg0.dormantVolatilityThreshold cfg0.dormantVolumeThreshold
        (getSnapshotsInWindow tokensB "tok" cfg0.baselinePeriodMinutes 10000000) = true ∧
    getTokenSource pairJump = some Source.pumpfun ∧
    meetsBasicCriteria cfg0 pairJump = true ∧
    cfg0.alertThreshold25 = true ∧
    isInCooldown (updateTokenState tokensB "tok" pairJump (mkSnapshot pairJump 10000000)
        (some Source.pumpfun) 10000000) "tok" Tier.tier25 cfg0.alertCooldownMs
        10000000 = false ∧
    pairJump.priceChangeM5 = some 30 ∧
    isDormant (updateTokenState tokensB "tok" pairJump (mkSnapshot pairJump 10000000)
        (some Source.pumpfun) 10000000) "tok" cfg0.dormantVolatilityThreshold
        cfg0.dormantVolumeThreshold cfg0.baselinePeriodMinutes 10000000 = false ∧
    (checkForSpike cfg0 tokensB pairJump 10000000).2 = none := by
  refine ⟨?_, ?_, ?_, ?_, ?_, ?_, ?_, ?_⟩ <;> decide

end SpikeBot
